import Mathlib

/-!
Shallow embedding of the air-quality server's core computation
(`server/routes.ts`): the weather impact model, the AQI trend analyzer,
the predictive forecast generator, the AQI status classifier and the
haversine distance utility.  JavaScript numbers are modelled by exact
rationals (`ℚ`) wherever the source performs field arithmetic, and by
reals (`ℝ`) where the source takes square roots or trigonometric
functions.  `Math.round x` is `⌊x + 1/2⌋` (JavaScript rounds half-way
cases toward positive infinity).
-/

namespace AirQualityServer

/-- JavaScript `Math.round` on exact rationals: half-way cases go up. -/
def jsRound (x : ℚ) : ℤ := ⌊x + 1/2⌋

/-- JavaScript `Math.round` on reals: half-way cases go up. -/
noncomputable def jsRoundR (x : ℝ) : ℤ := ⌊x + 1/2⌋

/-- Trend direction, the string union `'improving' | 'stable' | 'deteriorating'`. -/
inductive Trend where
  | improving
  | stable
  | deteriorating
deriving DecidableEq, Repr

/-- A historical air-quality reading; the core only ever reads its `aqi` field. -/
structure AQIReading where
  aqi : ℚ
deriving DecidableEq, Repr

/-- One point of the weather forecast, as consumed by `calculateWeatherImpact`
and `generatePredictiveForecast` (`hour`, `temperature`, `humidity`,
`windSpeed`, `pressure`; `description` and `icon` are never read by the core). -/
structure WeatherPoint where
  hour : ℤ
  temperature : ℚ
  humidity : ℚ
  windSpeed : ℚ
  pressure : ℚ
deriving DecidableEq, Repr

/-- Result record of `calculateWeatherImpact`. -/
structure WeatherImpact where
  windEffect : ℚ
  humidityEffect : ℚ
  pressureEffect : ℚ
  temperatureEffect : ℚ
  totalMultiplier : ℚ
deriving DecidableEq, Repr

/-- `calculateWeatherImpact` from `routes.ts` lines 14-33, with the
`WEATHER_IMPACT_COEFFICIENTS` table (lines 7-12) inlined:
windSpeed low 1.3 / medium 1.0 / high 0.7, humidity 0.9 / 1.0 / 1.2,
pressure 1.2 / 1.0 / 0.9, temperature cold 0.9 / mild 1.0 / hot 1.15. -/
def calculateWeatherImpact (weather : WeatherPoint) : WeatherImpact :=
  let windEffect : ℚ :=
    if weather.windSpeed < 5 then 1.3 else if weather.windSpeed > 15 then 0.7 else 1.0
  let humidityEffect : ℚ :=
    if weather.humidity < 40 then 0.9 else if weather.humidity > 70 then 1.2 else 1.0
  let pressureEffect : ℚ :=
    if weather.pressure < 1013 then 1.2 else if weather.pressure > 1023 then 0.9 else 1.0
  let temperatureEffect : ℚ :=
    if weather.temperature < 15 then 0.9 else if weather.temperature > 25 then 1.15 else 1.0
  { windEffect := windEffect
    humidityEffect := humidityEffect
    pressureEffect := pressureEffect
    temperatureEffect := temperatureEffect
    totalMultiplier := (windEffect + humidityEffect + pressureEffect + temperatureEffect) / 4 }

/-- Result record of `analyzeAQITrend`.  The source stores
`volatility = Math.sqrt variance`; since that square root is generally
irrational we store the exact variance in `volatilitySq` and recover the
source's `volatility` as `TrendSummary.volatility` below. -/
structure TrendSummary where
  trend : Trend
  volatilitySq : ℚ
  averageAQI : ℚ
deriving DecidableEq, Repr

/-- The `volatility` field the source stores: the square root of the variance. -/
noncomputable def TrendSummary.volatility (t : TrendSummary) : ℝ :=
  Real.sqrt (t.volatilitySq : ℝ)

/-- The `aqiValues` local of `analyzeAQITrend`: the AQI values of the most
recent (last) at most 6 readings, `historical.slice(-6).map(d => d.aqi)`. -/
def aqiValues (historical : List AQIReading) : List ℚ :=
  (historical.drop (historical.length - 6)).map fun d => d.aqi

/-- `analyzeAQITrend` from `routes.ts` lines 35-59.  For fewer than two
readings, `historical[0]?.aqi || 50` yields 50 when the history is empty
and ALSO when the single reading's aqi is `0` (zero is falsy in
JavaScript).  Otherwise: least-squares slope of the last ≤ 6 aqi values
against index, with `xSum`/`xxSum` the closed forms of Σ i and Σ i²,
`xySum` the index-weighted reduce, population variance, and slope
thresholds ±0.5 for the trend classification. -/
def analyzeAQITrend (historical : List AQIReading) : TrendSummary :=
  if historical.length < 2 then
    { trend := .stable
      volatilitySq := 0
      averageAQI :=
        match historical.head? with
        | none => 50
        | some r => if r.aqi = 0 then 50 else r.aqi }
  else
    let vals := aqiValues historical
    let n : ℚ := vals.length
    let averageAQI := vals.sum / n
    let xSum := n * (n - 1) / 2
    let ySum := vals.sum
    let xySum := (vals.enum.map fun p => (p.1 : ℚ) * p.2).sum
    let xxSum := n * (n - 1) * (2 * n - 1) / 6
    let slope := (n * xySum - xSum * ySum) / (n * xxSum - xSum * xSum)
    let variance := (vals.map fun a => (a - averageAQI) ^ 2).sum / n
    { trend :=
        if slope < -0.5 then .improving
        else if slope > 0.5 then .deteriorating
        else .stable
      volatilitySq := variance
      averageAQI := averageAQI }

/-- Specification-side slope, following the spec's words: least-squares slope
`(n·Σxy − Σx·Σy) / (n·Σx² − (Σx)²)` of the last ≤ 6 AQI values against index
0..n−1, written with explicit index sums (to be compared with the closed-form
`xSum`/`xxSum` the code uses). -/
def slopeSpec (h : List AQIReading) : ℚ :=
  ((aqiValues h).length *
      (∑ i ∈ Finset.range (aqiValues h).length, (i : ℚ) * (aqiValues h).getD i 0) -
    (∑ i ∈ Finset.range (aqiValues h).length, (i : ℚ)) *
      (∑ i ∈ Finset.range (aqiValues h).length, (aqiValues h).getD i 0)) /
  ((aqiValues h).length *
      (∑ i ∈ Finset.range (aqiValues h).length, (i : ℚ) ^ 2) -
    (∑ i ∈ Finset.range (aqiValues h).length, (i : ℚ)) ^ 2)

/-- Specification-side mean: the arithmetic mean of the considered values,
written with an explicit index sum. -/
def meanSpec (h : List AQIReading) : ℚ :=
  (∑ i ∈ Finset.range (aqiValues h).length, (aqiValues h).getD i 0) /
    (aqiValues h).length

/-- Specification-side volatility: the population standard deviation of the
considered values around their mean. -/
noncomputable def stddevSpec (h : List AQIReading) : ℝ :=
  Real.sqrt ((∑ i ∈ Finset.range (aqiValues h).length,
      (((aqiValues h).getD i 0 : ℝ) - (meanSpec h : ℝ)) ^ 2) /
    ((aqiValues h).length : ℝ))

/-- The `weatherFactors` sub-record emitted on each forecast point. -/
structure WeatherFactors where
  windEffect : ℚ
  humidityEffect : ℚ
  pressureEffect : ℚ
  temperatureEffect : ℚ
deriving DecidableEq, Repr

/-- One emitted forecast point.  `confidence` is real because it is derived
from the (generally irrational) volatility. -/
structure ForecastPoint where
  hour : ℤ
  aqi : ℤ
  status : String
  confidence : ℝ
  weatherFactors : WeatherFactors
  prediction : Trend

instance : Inhabited ForecastPoint :=
  ⟨{ hour := 0, aqi := 0, status := "", confidence := 0,
     weatherFactors := { windEffect := 1, humidityEffect := 1, pressureEffect := 1,
                         temperatureEffect := 1 },
     prediction := .stable }⟩

/-- `getAQIStatus` from `routes.ts` lines 453-460. -/
def getAQIStatus (aqi : ℚ) : String :=
  if aqi ≤ 50 then "Good"
  else if aqi ≤ 100 then "Moderate"
  else if aqi ≤ 150 then "Unhealthy for Sensitive Groups"
  else if aqi ≤ 200 then "Unhealthy"
  else if aqi ≤ 300 then "Very Unhealthy"
  else "Hazardous"

/-- The body of the `weatherForecast.map((weather, index) => ...)` callback of
`generatePredictiveForecast` (`routes.ts` lines 67-101), hoisted to a named
function of the two trend summaries, the step index and the weather point. -/
noncomputable def forecastStep (primaryTrend : TrendSummary)
    (regionalTrend : Option TrendSummary) (index : ℕ) (weather : WeatherPoint) :
    ForecastPoint :=
  let weatherImpact := calculateWeatherImpact weather
  let baseAQI : ℚ :=
    match regionalTrend with
    | none => primaryTrend.averageAQI
    | some rt => primaryTrend.averageAQI * (1 - 0.3) + rt.averageAQI * 0.3
  let trendModifier : ℚ :=
    match primaryTrend.trend with
    | .improving => 0.95
    | .deteriorating => 1.05
    | .stable => 1.0
  let timeMultiplier : ℚ := trendModifier ^ (index + 1)
  let predictedAQI : ℤ :=
    max 0 (jsRound (baseAQI * timeMultiplier * weatherImpact.totalMultiplier))
  let confidence : ℝ :=
    max 0.3 (min 0.95 (1 - primaryTrend.volatility / 100 - (index : ℝ) * 0.05))
  let prediction : Trend :=
    if weatherImpact.totalMultiplier < 0.95 then .improving
    else if weatherImpact.totalMultiplier > 1.05 then .deteriorating
    else .stable
  { hour := weather.hour
    aqi := predictedAQI
    status := getAQIStatus (predictedAQI : ℚ)
    confidence := (jsRoundR (confidence * 100) : ℝ) / 100
    weatherFactors :=
      { windEffect := weatherImpact.windEffect
        humidityEffect := weatherImpact.humidityEffect
        pressureEffect := weatherImpact.pressureEffect
        temperatureEffect := weatherImpact.temperatureEffect }
    prediction := prediction }

/-- `generatePredictiveForecast` from `routes.ts` lines 61-102.  `regionalData`
is `Option`al; note that in the source only `undefined`/`null` disable
blending — an EMPTY regional array is truthy, so `some []` still blends
(`regionalData ? analyzeAQITrend(regionalData) : null` is `Option.map`). -/
noncomputable def generatePredictiveForecast (currentAQI : List AQIReading)
    (weatherForecast : List WeatherPoint) (regionalData : Option (List AQIReading)) :
    List ForecastPoint :=
  if currentAQI.length = 0 ∨ weatherForecast.length = 0 then []
  else
    let primaryTrend := analyzeAQITrend currentAQI
    let regionalTrend := regionalData.map analyzeAQITrend
    weatherForecast.enum.map fun p => forecastStep primaryTrend regionalTrend p.1 p.2

/-- JavaScript `Math.atan2`, split by the sign of the second argument. -/
noncomputable def atan2 (y x : ℝ) : ℝ :=
  if 0 < x then Real.arctan (y / x)
  else if x < 0 then
    (if 0 ≤ y then Real.arctan (y / x) + Real.pi else Real.arctan (y / x) - Real.pi)
  else
    (if 0 < y then Real.pi / 2 else if y < 0 then -(Real.pi / 2) else 0)

/-- `calculateDistance` from `routes.ts` lines 480-490: haversine distance
with Earth radius 3959 miles. -/
noncomputable def calculateDistance (lat1 lon1 lat2 lon2 : ℝ) : ℝ :=
  let R : ℝ := 3959
  let dLat := (lat2 - lat1) * Real.pi / 180
  let dLon := (lon2 - lon1) * Real.pi / 180
  let a :=
    Real.sin (dLat / 2) * Real.sin (dLat / 2) +
      Real.cos (lat1 * Real.pi / 180) * Real.cos (lat2 * Real.pi / 180) *
        (Real.sin (dLon / 2) * Real.sin (dLon / 2))
  let c := 2 * atan2 (Real.sqrt a) (Real.sqrt (1 - a))
  R * c

/-! ### Shared helper lemmas -/

lemma jsRound_zero : jsRound 0 = 0 := by norm_num [jsRound]

lemma jsRound_nonneg {x : ℚ} (h : 0 ≤ x) : 0 ≤ jsRound x := by
  rw [jsRound, Int.le_floor]
  push_cast
  linarith

lemma jsRound_nonpos {x : ℚ} (h : x ≤ 0) : jsRound x ≤ 0 := by
  have h1 : ⌊x + 1/2⌋ ≤ ⌊(0:ℚ) + 1/2⌋ := Int.floor_le_floor (by linarith)
  have h2 : ⌊(0:ℚ) + 1/2⌋ = 0 := by norm_num
  rw [jsRound]
  omega

/-- Rounding after clamping below by 0 is the same as clamping the rounded value. -/
lemma jsRound_max_zero (x : ℚ) : jsRound (max 0 x) = max 0 (jsRound x) := by
  rcases le_total x 0 with h | h
  · rw [max_eq_left h, jsRound_zero, eq_comm]
    exact max_eq_left (jsRound_nonpos h)
  · rw [max_eq_right h, eq_comm]
    exact max_eq_right (jsRound_nonneg h)

/-- Indexing into the generated forecast: point `i` is the step function applied
to the two trend summaries, the index and the `i`-th weather point. -/
lemma generatePredictiveForecast_getD (p : List AQIReading) (w : List WeatherPoint)
    (s : Option (List AQIReading)) (hp : p ≠ []) {i : ℕ} (hi : i < w.length)
    (dw : WeatherPoint) :
    (generatePredictiveForecast p w s).getD i default =
      forecastStep (analyzeAQITrend p) (s.map analyzeAQITrend) i (w.getD i dw) := by
  have hcond : ¬ (p.length = 0 ∨ w.length = 0) := by
    push_neg
    exact ⟨fun h => hp (List.length_eq_zero.mp h), by omega⟩
  simp only [generatePredictiveForecast, if_neg hcond]
  have hlen : i <
      (w.enum.map fun q =>
        forecastStep (analyzeAQITrend p) (Option.map analyzeAQITrend s) q.1 q.2).length := by
    simpa using hi
  rw [List.getD_eq_getElem _ _ hlen, List.getD_eq_getElem _ _ hi]
  simp

/-- The generated forecast has one point per weather point (when both required
inputs are non-empty). -/
lemma generatePredictiveForecast_length (p : List AQIReading) (w : List WeatherPoint)
    (s : Option (List AQIReading)) (hp : p ≠ []) (hw : w ≠ []) :
    (generatePredictiveForecast p w s).length = w.length := by
  have hcond : ¬ (p.length = 0 ∨ w.length = 0) := by
    push_neg
    exact ⟨fun h => hp (List.length_eq_zero.mp h), fun h => hw (List.length_eq_zero.mp h)⟩
  rw [generatePredictiveForecast, if_neg hcond]
  simp

/-! ### Claims -/

/-- C6: if the primary history or the weather forecast is empty, the forecast
generator returns the empty sequence (and, being a total Lean function, cannot
fail). -/
theorem C6_empty_inputs_give_empty_forecast (p : List AQIReading)
    (w : List WeatherPoint) (s : Option (List AQIReading)) (h : p = [] ∨ w = []) :
    generatePredictiveForecast p w s = [] := by
  rw [generatePredictiveForecast, if_pos]
  rcases h with h | h <;> simp [h]

theorem C6_witness :
    (([] : List AQIReading) = [] ∨ ([⟨0, 20, 50, 10, 1015⟩] : List WeatherPoint) = []) ∧
      generatePredictiveForecast [] [⟨0, 20, 50, 10, 1015⟩] none = [] :=
  ⟨Or.inl rfl, C6_empty_inputs_give_empty_forecast _ _ none (Or.inl rfl)⟩

/-- C7: the AQI classifier is total with inclusive upper bounds 50, 100, 150,
200, 300; negative values classify as Good, and each breakpoint value stays in
the lower band while the next integer moves to the upper band. -/
theorem C7_classifier_bands (v : ℚ) :
    (v ≤ 50 → getAQIStatus v = "Good")
    ∧ (50 < v → v ≤ 100 → getAQIStatus v = "Moderate")
    ∧ (100 < v → v ≤ 150 → getAQIStatus v = "Unhealthy for Sensitive Groups")
    ∧ (150 < v → v ≤ 200 → getAQIStatus v = "Unhealthy")
    ∧ (200 < v → v ≤ 300 → getAQIStatus v = "Very Unhealthy")
    ∧ (300 < v → getAQIStatus v = "Hazardous")
    ∧ (v < 0 → getAQIStatus v = "Good")
    ∧ getAQIStatus 50 = "Good" ∧ getAQIStatus 51 = "Moderate"
    ∧ getAQIStatus 100 = "Moderate" ∧ getAQIStatus 101 = "Unhealthy for Sensitive Groups"
    ∧ getAQIStatus 150 = "Unhealthy for Sensitive Groups" ∧ getAQIStatus 151 = "Unhealthy"
    ∧ getAQIStatus 200 = "Unhealthy" ∧ getAQIStatus 201 = "Very Unhealthy"
    ∧ getAQIStatus 300 = "Very Unhealthy" ∧ getAQIStatus 301 = "Hazardous" := by
  refine ⟨?_, ?_, ?_, ?_, ?_, ?_, ?_, by decide, by decide, by decide, by decide,
    by decide, by decide, by decide, by decide, by decide, by decide⟩ <;>
    (intros; unfold getAQIStatus; split_ifs <;> first | rfl | linarith)

theorem C7_witness : getAQIStatus 42 = "Good" :=
  (C7_classifier_bands 42).1 (by norm_num)

/-- C3 counterexample: at windSpeed 0, humidity 20, pressure 1030 and
temperature 5 the four effects are 1.3, 0.9, 0.9 and 0.9, whose mean is
exactly 1, yet none of the four parameters is in its neutral range — the
claimed "exactly when" equivalence is false at this input. -/
theorem C3_counterexample :
    ¬ ((calculateWeatherImpact ⟨0, 5, 20, 0, 1030⟩).totalMultiplier = 1 ↔
      (5 ≤ (⟨0, 5, 20, 0, 1030⟩ : WeatherPoint).windSpeed ∧
        (⟨0, 5, 20, 0, 1030⟩ : WeatherPoint).windSpeed ≤ 15 ∧
        40 ≤ (⟨0, 5, 20, 0, 1030⟩ : WeatherPoint).humidity ∧
        (⟨0, 5, 20, 0, 1030⟩ : WeatherPoint).humidity ≤ 70 ∧
        1013 ≤ (⟨0, 5, 20, 0, 1030⟩ : WeatherPoint).pressure ∧
        (⟨0, 5, 20, 0, 1030⟩ : WeatherPoint).pressure ≤ 1023 ∧
        15 ≤ (⟨0, 5, 20, 0, 1030⟩ : WeatherPoint).temperature ∧
        (⟨0, 5, 20, 0, 1030⟩ : WeatherPoint).temperature ≤ 25)) := by
  have h : (calculateWeatherImpact ⟨0, 5, 20, 0, 1030⟩).totalMultiplier = 1 := by
    norm_num [calculateWeatherImpact]
  intro hiff
  exact absurd (hiff.mp h).1 (by norm_num)

/-- C3 (amended): the total multiplier is the arithmetic mean of the four
per-factor effects, and IF all four weather parameters lie in their neutral
ranges THEN the total multiplier is 1; the converse direction fails (see the
counterexample). -/
theorem C3_mean_and_neutral_ranges (w : WeatherPoint) :
    (calculateWeatherImpact w).totalMultiplier =
      ((calculateWeatherImpact w).windEffect + (calculateWeatherImpact w).humidityEffect +
        (calculateWeatherImpact w).pressureEffect +
        (calculateWeatherImpact w).temperatureEffect) / 4
    ∧ ((5 ≤ w.windSpeed ∧ w.windSpeed ≤ 15 ∧ 40 ≤ w.humidity ∧ w.humidity ≤ 70 ∧
        1013 ≤ w.pressure ∧ w.pressure ≤ 1023 ∧ 15 ≤ w.temperature ∧ w.temperature ≤ 25) →
        (calculateWeatherImpact w).totalMultiplier = 1) := by
  constructor
  · simp [calculateWeatherImpact]
  · rintro ⟨h1, h2, h3, h4, h5, h6, h7, h8⟩
    simp only [calculateWeatherImpact]
    rw [if_neg (by linarith), if_neg (by linarith), if_neg (by linarith),
      if_neg (by linarith), if_neg (by linarith), if_neg (by linarith),
      if_neg (by linarith), if_neg (by linarith)]
    norm_num

theorem C3_witness :
    (calculateWeatherImpact ⟨0, 20, 50, 10, 1015⟩).totalMultiplier = 1 :=
  (C3_mean_and_neutral_ranges ⟨0, 20, 50, 10, 1015⟩).2 (by norm_num)

/-- C4 counterexample: a single reading whose AQI is 0 does NOT give
averageAQI 0 — the JavaScript expression `historical[0]?.aqi || 50` treats the
falsy value 0 as absent and falls back to 50. -/
theorem C4_counterexample :
    (analyzeAQITrend [⟨0⟩]).averageAQI = 50 ∧
      ¬ (analyzeAQITrend [⟨0⟩]).averageAQI = 0 := by
  decide

/-- C4 (amended): with fewer than 2 readings the trend analyzer returns trend
stable, volatility 0, and averageAQI equal to the single reading's AQI when one
is present and its AQI is nonzero; when the history is empty or the single
reading's AQI is 0, averageAQI is the fallback 50. -/
theorem C4_short_history (h : List AQIReading) (hl : h.length < 2) :
    (analyzeAQITrend h).trend = Trend.stable
    ∧ (analyzeAQITrend h).volatility = 0
    ∧ (analyzeAQITrend h).averageAQI =
        (match h.head? with
         | none => 50
         | some r => if r.aqi = 0 then 50 else r.aqi) := by
  rw [analyzeAQITrend, if_pos hl]
  refine ⟨rfl, ?_, rfl⟩
  simp [TrendSummary.volatility]

theorem C4_witness :
    ([(⟨7⟩ : AQIReading)].length < 2) ∧
      (analyzeAQITrend [⟨7⟩]).trend = Trend.stable ∧
      (analyzeAQITrend [⟨7⟩]).volatility = 0 ∧
      (analyzeAQITrend [⟨7⟩]).averageAQI = 7 := by
  have h := C4_short_history [⟨7⟩] (by decide)
  exact ⟨by decide, h.1, h.2.1, by simpa using h.2.2⟩

/-- C1: each forecast point's aqi equals `round (max 0 (base · trendModifier ^ (i+1) ·
totalMultiplier))`, with base the primary average blended 0.7 / 0.3 with the
secondary average when a secondary history is supplied, and trend modifier
0.95 / 1.05 / 1.0 for improving / deteriorating / stable.  (The source computes
`max 0 (round x)`, which agrees with the claimed `round (max 0 x)`.) -/
theorem C1_predicted_aqi_formula (p : List AQIReading) (w : List WeatherPoint)
    (s : Option (List AQIReading)) (hp : p ≠ []) {i : ℕ} (hi : i < w.length) :
    ((generatePredictiveForecast p w s).getD i default).aqi =
      jsRound (max 0
        ((match s with
          | none => (analyzeAQITrend p).averageAQI
          | some sec =>
              (analyzeAQITrend p).averageAQI * 0.7 +
                (analyzeAQITrend sec).averageAQI * 0.3) *
          (match (analyzeAQITrend p).trend with
           | Trend.improving => (0.95 : ℚ)
           | Trend.stable => 1
           | Trend.deteriorating => 1.05) ^ (i + 1) *
          (calculateWeatherImpact (w.getD i ⟨0, 0, 0, 0, 0⟩)).totalMultiplier)) := by
  rw [generatePredictiveForecast_getD p w s hp hi ⟨0, 0, 0, 0, 0⟩, jsRound_max_zero]
  rcases s with _ | sec <;>
    rcases htrend : (analyzeAQITrend p).trend <;>
      simp only [forecastStep, Option.map_none', Option.map_some', htrend] <;>
        norm_num

theorem C1_witness :
    ([(⟨40⟩ : AQIReading)] ≠ [] ∧ 0 < [(⟨0, 20, 50, 10, 1015⟩ : WeatherPoint)].length) ∧
      ((generatePredictiveForecast [⟨40⟩] [⟨0, 20, 50, 10, 1015⟩] none).getD 0 default).aqi =
        jsRound (max 0 ((analyzeAQITrend [⟨40⟩]).averageAQI * 1 ^ (0 + 1) *
          (calculateWeatherImpact ([(⟨0, 20, 50, 10, 1015⟩ : WeatherPoint)].getD 0
            ⟨0, 0, 0, 0, 0⟩)).totalMultiplier)) := by
  have h := C1_predicted_aqi_formula [⟨40⟩] [⟨0, 20, 50, 10, 1015⟩] none
    (by decide) (i := 0) (by decide)
  refine ⟨⟨by decide, by decide⟩, ?_⟩
  rw [h]
  have ht : (analyzeAQITrend [⟨40⟩]).trend = Trend.stable := by decide
  rw [ht]

/-- C8: with both required inputs non-empty the generator emits exactly one
point per weather point in the same order; point `i` carries the `i`-th weather
point's hour, and its status is the classifier applied to its own aqi. -/
theorem C8_one_point_per_weather_point (p : List AQIReading) (w : List WeatherPoint)
    (s : Option (List AQIReading)) (hp : p ≠ []) (hw : w ≠ []) :
    (generatePredictiveForecast p w s).length = w.length
    ∧ ∀ i, i < w.length →
        ((generatePredictiveForecast p w s).getD i default).hour =
          (w.getD i ⟨0, 0, 0, 0, 0⟩).hour
        ∧ ((generatePredictiveForecast p w s).getD i default).status =
            getAQIStatus (((generatePredictiveForecast p w s).getD i default).aqi : ℚ) := by
  refine ⟨generatePredictiveForecast_length p w s hp hw, fun i hi => ?_⟩
  rw [generatePredictiveForecast_getD p w s hp hi ⟨0, 0, 0, 0, 0⟩]
  exact ⟨rfl, rfl⟩

theorem C8_witness :
    ([(⟨40⟩ : AQIReading)] ≠ [] ∧ ([⟨0, 20, 50, 10, 1015⟩] : List WeatherPoint) ≠ []) ∧
      (generatePredictiveForecast [⟨40⟩] [⟨0, 20, 50, 10, 1015⟩] none).length = 1 := by
  have h := C8_one_point_per_weather_point [⟨40⟩] [⟨0, 20, 50, 10, 1015⟩] none
    (by decide) (by decide)
  exact ⟨⟨by decide, by decide⟩, h.1⟩

/-- C10: a supplied-but-empty secondary history still triggers blending: the
secondary trend summary degenerates to stable / volatility 0 / average 50, so
each point's aqi uses the blended base `primaryAverage · 0.7 + 50 · 0.3`. -/
theorem C10_empty_secondary_still_blends (p : List AQIReading) (w : List WeatherPoint)
    (hp : p ≠ []) {i : ℕ} (hi : i < w.length) :
    (analyzeAQITrend []).trend = Trend.stable
    ∧ (analyzeAQITrend []).volatility = 0
    ∧ (analyzeAQITrend []).averageAQI = 50
    ∧ ((generatePredictiveForecast p w (some [])).getD i default).aqi =
        max 0 (jsRound (((analyzeAQITrend p).averageAQI * 0.7 + 50 * 0.3) *
          (match (analyzeAQITrend p).trend with
           | Trend.improving => (0.95 : ℚ)
           | Trend.stable => 1
           | Trend.deteriorating => 1.05) ^ (i + 1) *
          (calculateWeatherImpact (w.getD i ⟨0, 0, 0, 0, 0⟩)).totalMultiplier)) := by
  refine ⟨rfl, by simp [analyzeAQITrend, TrendSummary.volatility], by decide, ?_⟩
  rw [generatePredictiveForecast_getD p w (some []) hp hi ⟨0, 0, 0, 0, 0⟩]
  have h50 : (analyzeAQITrend []).averageAQI = 50 := by decide
  rcases htrend : (analyzeAQITrend p).trend <;>
    simp only [forecastStep, Option.map_some', htrend, h50] <;>
      norm_num

theorem C10_witness :
    ([(⟨40⟩ : AQIReading)] ≠ [] ∧ 0 < [(⟨0, 20, 50, 10, 1015⟩ : WeatherPoint)].length) ∧
      (analyzeAQITrend []).averageAQI = 50 ∧
      ((generatePredictiveForecast [⟨40⟩] [⟨0, 20, 50, 10, 1015⟩] (some [])).getD 0
          default).aqi =
        max 0 (jsRound (((analyzeAQITrend [⟨40⟩]).averageAQI * 0.7 + 50 * 0.3) * 1 ^ (0 + 1) *
          (calculateWeatherImpact ([(⟨0, 20, 50, 10, 1015⟩ : WeatherPoint)].getD 0
            ⟨0, 0, 0, 0, 0⟩)).totalMultiplier)) := by
  have h := C10_empty_secondary_still_blends [⟨40⟩] [⟨0, 20, 50, 10, 1015⟩]
    (by decide) (i := 0) (by decide)
  have ht : (analyzeAQITrend [⟨40⟩]).trend = Trend.stable := by decide
  refine ⟨⟨by decide, by decide⟩, h.2.2.1, ?_⟩
  have h4 := h.2.2.2
  rw [ht] at h4
  exact h4

/-- Clamping to [0.3, 0.95] can be written in either nesting order. -/
lemma max_min_clamp (x : ℝ) : max 0.3 (min 0.95 x) = min 0.95 (max 0.3 x) := by
  rcases le_total x 0.3 with h | h
  · rw [min_eq_right (by linarith : x ≤ (0.95 : ℝ)), max_eq_left h,
      min_eq_right (by norm_num : (0.3 : ℝ) ≤ 0.95)]
  · rw [max_eq_right h, max_eq_right (le_min (by norm_num : (0.3 : ℝ) ≤ 0.95) h)]

/-- The confidence field of forecast point `i`, before any claim-side rewriting:
the clamped linear decay, rounded to two decimals. -/
lemma forecast_confidence_eq (p : List AQIReading) (w : List WeatherPoint)
    (s : Option (List AQIReading)) (hp : p ≠ []) {i : ℕ} (hi : i < w.length) :
    ((generatePredictiveForecast p w s).getD i default).confidence =
      (jsRoundR ((max 0.3 (min 0.95
        (1 - (analyzeAQITrend p).volatility / 100 - (i : ℝ) * 0.05))) * 100) : ℝ) / 100 := by
  rw [generatePredictiveForecast_getD p w s hp hi ⟨0, 0, 0, 0, 0⟩]
  rfl

/-- C2: each point's confidence is `clamp (1 − volatility/100 − i·0.05)` to
[0.3, 0.95], rounded to two decimals; it is non-increasing in the step index,
and always lies in [0.3, 0.95]. -/
theorem C2_confidence_decay (p : List AQIReading) (w : List WeatherPoint)
    (s : Option (List AQIReading)) (hp : p ≠ []) :
    (∀ i, i < w.length →
      ((generatePredictiveForecast p w s).getD i default).confidence =
        (jsRoundR ((min 0.95 (max 0.3
          (1 - (analyzeAQITrend p).volatility / 100 - (i : ℝ) * 0.05))) * 100) : ℝ) / 100)
    ∧ (∀ i j, i ≤ j → j < w.length →
        ((generatePredictiveForecast p w s).getD j default).confidence ≤
          ((generatePredictiveForecast p w s).getD i default).confidence)
    ∧ (∀ i, i < w.length →
        0.3 ≤ ((generatePredictiveForecast p w s).getD i default).confidence ∧
          ((generatePredictiveForecast p w s).getD i default).confidence ≤ 0.95) := by
  refine ⟨fun i hi => ?_, fun i j hij hj => ?_, fun i hi => ?_⟩
  · rw [forecast_confidence_eq p w s hp hi, max_min_clamp]
  · have hi : i < w.length := lt_of_le_of_lt hij hj
    rw [forecast_confidence_eq p w s hp hi, forecast_confidence_eq p w s hp hj]
    have h1 : (1 : ℝ) - (analyzeAQITrend p).volatility / 100 - (j : ℝ) * 0.05 ≤
        1 - (analyzeAQITrend p).volatility / 100 - (i : ℝ) * 0.05 := by
      have : (i : ℝ) ≤ (j : ℝ) := Nat.cast_le.mpr hij
      nlinarith
    have h2 : max 0.3 (min 0.95 ((1:ℝ) - (analyzeAQITrend p).volatility / 100 - (j : ℝ) * 0.05)) ≤
        max 0.3 (min 0.95 ((1:ℝ) - (analyzeAQITrend p).volatility / 100 - (i : ℝ) * 0.05)) :=
      max_le_max le_rfl (min_le_min le_rfl h1)
    have h3 : jsRoundR ((max 0.3 (min 0.95
          ((1:ℝ) - (analyzeAQITrend p).volatility / 100 - (j : ℝ) * 0.05))) * 100) ≤
        jsRoundR ((max 0.3 (min 0.95
          ((1:ℝ) - (analyzeAQITrend p).volatility / 100 - (i : ℝ) * 0.05))) * 100) := by
      apply Int.floor_le_floor
      nlinarith
    gcongr
  · rw [forecast_confidence_eq p w s hp hi]
    set c : ℝ := max 0.3 (min 0.95
      (1 - (analyzeAQITrend p).volatility / 100 - (i : ℝ) * 0.05)) with hc
    have hc1 : (0.3 : ℝ) ≤ c := le_max_left _ _
    have hc2 : c ≤ 0.95 := max_le (by norm_num) (min_le_left _ _)
    have hfl : jsRoundR (c * 100) = ⌊c * 100 + 1/2⌋ := rfl
    constructor
    · have h30 : (30 : ℤ) ≤ ⌊c * 100 + 1/2⌋ := by
        rw [Int.le_floor]
        push_cast
        nlinarith
      have h30R : (30 : ℝ) ≤ (⌊c * 100 + 1/2⌋ : ℝ) := by exact_mod_cast h30
      rw [hfl]
      linarith
    · have hle : (⌊c * 100 + 1/2⌋ : ℝ) ≤ c * 100 + 1/2 := Int.floor_le _
      have h96 : (⌊c * 100 + 1/2⌋ : ℝ) < 96 := by nlinarith
      have h96Z : ⌊c * 100 + 1/2⌋ < 96 := by exact_mod_cast h96
      have h95R : (⌊c * 100 + 1/2⌋ : ℝ) ≤ 95 := by exact_mod_cast (by omega : ⌊c * 100 + 1/2⌋ ≤ 95)
      rw [hfl]
      linarith

theorem C2_witness :
    ([(⟨40⟩ : AQIReading)] ≠ []) ∧
      0.3 ≤ ((generatePredictiveForecast [⟨40⟩] [⟨0, 20, 50, 10, 1015⟩] none).getD 0
        default).confidence := by
  have h := C2_confidence_decay [⟨40⟩] [⟨0, 20, 50, 10, 1015⟩] none (by decide)
  exact ⟨by decide, (h.2.2 0 (by decide)).1⟩

/-- C9: the haversine distance utility returns 0 on identical coordinates and
is symmetric in its two points. -/
theorem C9_distance_zero_and_symmetric :
    (∀ lat lon : ℝ, calculateDistance lat lon lat lon = 0)
    ∧ (∀ lat1 lon1 lat2 lon2 : ℝ,
        calculateDistance lat1 lon1 lat2 lon2 = calculateDistance lat2 lon2 lat1 lon1) := by
  constructor
  · intro lat lon
    simp only [calculateDistance, sub_self, zero_mul, zero_div, Real.sin_zero, mul_zero,
      zero_add, add_zero, Real.sqrt_zero, sub_zero, Real.sqrt_one, atan2]
    rw [if_pos (by norm_num : (0:ℝ) < 1)]
    simp
  · intro lat1 lon1 lat2 lon2
    have key : ∀ x y : ℝ,
        Real.sin ((x - y) * Real.pi / 180 / 2) * Real.sin ((x - y) * Real.pi / 180 / 2) =
          Real.sin ((y - x) * Real.pi / 180 / 2) * Real.sin ((y - x) * Real.pi / 180 / 2) := by
      intro x y
      have h : (x - y) * Real.pi / 180 / 2 = -((y - x) * Real.pi / 180 / 2) := by ring
      rw [h, Real.sin_neg, neg_mul_neg]
    simp only [calculateDistance]
    rw [key lat2 lat1, key lon2 lon1,
      mul_comm (Real.cos (lat1 * Real.pi / 180)) (Real.cos (lat2 * Real.pi / 180))]

/-! ### Index-sum helper lemmas for the regression claim -/

lemma sum_range_cast (m : ℕ) :
    ∑ i ∈ Finset.range m, (i : ℚ) = (m : ℚ) * ((m : ℚ) - 1) / 2 := by
  induction m with
  | zero => simp
  | succ k ih =>
      rw [Finset.sum_range_succ, ih]
      push_cast
      ring

lemma sum_range_sq_cast (m : ℕ) :
    ∑ i ∈ Finset.range m, (i : ℚ) ^ 2 =
      (m : ℚ) * ((m : ℚ) - 1) * (2 * (m : ℚ) - 1) / 6 := by
  induction m with
  | zero => simp
  | succ k ih =>
      rw [Finset.sum_range_succ, ih]
      push_cast
      ring

lemma list_sum_getD {M : Type} [AddCommMonoid M] (l : List M) :
    l.sum = ∑ i ∈ Finset.range l.length, l.getD i 0 := by
  induction l with
  | nil => simp
  | cons a t ih =>
      rw [List.sum_cons, ih, List.length_cons, Finset.sum_range_succ']
      simp [List.getD_cons_succ, List.getD_cons_zero, add_comm]

lemma getD_map_lt {α β : Type} (f : α → β) (l : List α) {i : ℕ} (h : i < l.length)
    (d : α) (e : β) : (l.map f).getD i e = f (l.getD i d) := by
  rw [List.getD_eq_getElem _ _ (by simpa using h), List.getD_eq_getElem _ _ h,
    List.getElem_map]

lemma map_sum_getD {α β : Type} [Zero α] [AddCommMonoid β] (f : α → β) (l : List α) :
    (l.map f).sum = ∑ i ∈ Finset.range l.length, f (l.getD i 0) := by
  rw [list_sum_getD, List.length_map]
  exact Finset.sum_congr rfl fun i hi => getD_map_lt f l (Finset.mem_range.mp hi) 0 0

lemma enumFrom_weighted_sum (k : ℕ) (l : List ℚ) :
    ((List.enumFrom k l).map fun p => (p.1 : ℚ) * p.2).sum =
      ∑ i ∈ Finset.range l.length, ((k + i : ℕ) : ℚ) * l.getD i 0 := by
  induction l generalizing k with
  | nil => simp
  | cons a t ih =>
      rw [List.enumFrom_cons, List.map_cons, List.sum_cons, ih (k + 1), List.length_cons,
        Finset.sum_range_succ']
      simp only [List.getD_cons_succ, List.getD_cons_zero, Nat.add_zero]
      rw [add_comm]
      congr 1
      exact Finset.sum_congr rfl fun i _ => by rw [show k + 1 + i = k + (i + 1) from by omega]

lemma enum_weighted_sum (l : List ℚ) :
    (l.enum.map fun p => (p.1 : ℚ) * p.2).sum =
      ∑ i ∈ Finset.range l.length, (i : ℚ) * l.getD i 0 := by
  have h := enumFrom_weighted_sum 0 l
  simpa [List.enum] using h

lemma aqiValues_length_ne_zero (h : List AQIReading) (hl : 2 ≤ h.length) :
    (aqiValues h).length ≠ 0 := by
  unfold aqiValues
  rw [List.length_map, List.length_drop]
  omega

/-- Unfolding of the trend analyzer on a history of length ≥ 2, with every
inner sum rewritten to an explicit index sum: the code's closed forms
`xSum = n(n−1)/2` and `xxSum = n(n−1)(2n−1)/6` are exactly Σx and Σx². -/
lemma analyzeAQITrend_long (h : List AQIReading) (hl : 2 ≤ h.length) :
    analyzeAQITrend h =
      { trend :=
          if slopeSpec h < -0.5 then Trend.improving
          else if slopeSpec h > 0.5 then Trend.deteriorating
          else Trend.stable
        volatilitySq :=
          (∑ i ∈ Finset.range (aqiValues h).length,
              ((aqiValues h).getD i 0 - meanSpec h) ^ 2) / ((aqiValues h).length : ℚ)
        averageAQI := meanSpec h } := by
  have e1 : (aqiValues h).sum
      = ∑ i ∈ Finset.range (aqiValues h).length, (aqiValues h).getD i 0 :=
    list_sum_getD _
  have e2 := enum_weighted_sum (aqiValues h)
  have e3 := sum_range_cast (aqiValues h).length
  have e4 := sum_range_sq_cast (aqiValues h).length
  have e5 := map_sum_getD
    (fun a => (a - (aqiValues h).sum / ((aqiValues h).length : ℚ)) ^ 2) (aqiValues h)
  simp only [analyzeAQITrend]
  rw [if_neg (by omega : ¬ h.length < 2)]
  rw [e2, e5, e1, ← e3, ← e4]
  rw [show (∑ i ∈ Finset.range (aqiValues h).length, (i : ℚ)) *
      (∑ i ∈ Finset.range (aqiValues h).length, (i : ℚ)) =
      (∑ i ∈ Finset.range (aqiValues h).length, (i : ℚ)) ^ 2 from (pow_two _).symm]
  rw [show (∑ i ∈ Finset.range (aqiValues h).length,
        ((aqiValues h).getD i 0 -
          (∑ j ∈ Finset.range (aqiValues h).length, (aqiValues h).getD j 0) /
            ((aqiValues h).length : ℚ)) ^ 2) =
      ∑ i ∈ Finset.range (aqiValues h).length,
        ((aqiValues h).getD i 0 - meanSpec h) ^ 2 from by rw [meanSpec]]
  rw [slopeSpec, meanSpec]

/-- C5: on a history of length ≥ 2 the analyzer classifies by the least-squares
slope of the last ≤ 6 AQI values against index (thresholds ±0.5), reports their
arithmetic mean as averageAQI and their population standard deviation as
volatility; a constant sequence comes out stable with volatility 0. -/
theorem C5_regression_classification (h : List AQIReading) (hl : 2 ≤ h.length) :
    ((analyzeAQITrend h).trend =
      if slopeSpec h < -0.5 then Trend.improving
      else if slopeSpec h > 0.5 then Trend.deteriorating
      else Trend.stable)
    ∧ (analyzeAQITrend h).averageAQI = meanSpec h
    ∧ (analyzeAQITrend h).volatility = stddevSpec h
    ∧ (∀ c : ℚ, (∀ r ∈ h, r.aqi = c) →
        (analyzeAQITrend h).trend = Trend.stable ∧ (analyzeAQITrend h).volatility = 0) := by
  have hmain := analyzeAQITrend_long h hl
  have hlen : (aqiValues h).length ≠ 0 := aqiValues_length_ne_zero h hl
  refine ⟨by rw [hmain], by rw [hmain], ?_, ?_⟩
  · rw [hmain]
    simp only [TrendSummary.volatility, stddevSpec]
    congr 1
    push_cast
    rfl
  · intro c hc
    have hvals : ∀ x ∈ aqiValues h, x = c := by
      intro x hx
      unfold aqiValues at hx
      rcases List.mem_map.mp hx with ⟨r, hr, hxr⟩
      exact hxr ▸ hc r (List.drop_subset _ _ hr)
    have hgetD : ∀ i, i < (aqiValues h).length → (aqiValues h).getD i 0 = c := by
      intro i hi
      rw [List.getD_eq_getElem _ _ hi]
      exact hvals _ (List.getElem_mem hi)
    have hsum : (∑ i ∈ Finset.range (aqiValues h).length, (aqiValues h).getD i 0)
        = ((aqiValues h).length : ℚ) * c := by
      rw [Finset.sum_congr rfl fun i hi => hgetD i (Finset.mem_range.mp hi),
        Finset.sum_const, Finset.card_range, nsmul_eq_mul]
    have hxysum : (∑ i ∈ Finset.range (aqiValues h).length,
          (i : ℚ) * (aqiValues h).getD i 0)
        = (∑ i ∈ Finset.range (aqiValues h).length, (i : ℚ)) * c := by
      rw [Finset.sum_mul]
      exact Finset.sum_congr rfl fun i hi => by rw [hgetD i (Finset.mem_range.mp hi)]
    have hslope : slopeSpec h = 0 := by
      rw [slopeSpec, hxysum, hsum]
      rw [show ((aqiValues h).length : ℚ) *
          ((∑ i ∈ Finset.range (aqiValues h).length, (i : ℚ)) * c) -
          (∑ i ∈ Finset.range (aqiValues h).length, (i : ℚ)) *
            (((aqiValues h).length : ℚ) * c) = 0 from by ring, zero_div]
    have hmean : meanSpec h = c := by
      rw [meanSpec, hsum, mul_comm, mul_div_assoc,
        div_self (Nat.cast_ne_zero.mpr hlen), mul_one]
    have hvarzero : (∑ i ∈ Finset.range (aqiValues h).length,
        ((aqiValues h).getD i 0 - meanSpec h) ^ 2) = 0 :=
      Finset.sum_eq_zero fun i hi => by
        rw [hgetD i (Finset.mem_range.mp hi), hmean, sub_self]
        ring
    constructor
    · rw [hmain]
      simp only [hslope]
      norm_num
    · rw [hmain]
      simp only [TrendSummary.volatility]
      rw [hvarzero, zero_div]
      simp

theorem C5_witness :
    (2 ≤ ([⟨40⟩, ⟨45⟩] : List AQIReading).length) ∧
      (analyzeAQITrend [⟨40⟩, ⟨45⟩]).averageAQI = meanSpec [⟨40⟩, ⟨45⟩] := by
  have h := C5_regression_classification [⟨40⟩, ⟨45⟩] (by decide)
  exact ⟨by decide, h.2.1⟩

end AirQualityServer
